import Mathlib

/-!
Verification of the matter-hub capability gateway (src/src/main.rs).

The development shallowly embeds the core logic of the single Rust source
file: the static cluster/command registry (`get_cluster_name`,
`get_command_name`), the diagnostic-output parser built around the fixed
regular expression `\[TOO\].*?\[\d+\]:\s+(\d+)\s+\(` applied per line of
tool output, the commissioning orchestrator `handle_device_commission`,
and the command dispatcher `handle_device_command`.

Modelling conventions:
- Rust `i32`/`u32` become `Int`/`Nat`; `u32::from_str_radix(_, 10)` is
  `parseU32`, which rejects non-digit input and values at or above 2^32
  (Rust overflow yields `Err`).
- External effects are explicit: subprocess execution is an oracle
  `List String -> ProcResult` mapping the positional argument list to the
  outcome; each handler also returns the list of argument lists it passed
  to the external tool, and the resulting device table, so that absence of
  invocations and persistence can be stated.
- Rust panics (from `unwrap`/`expect`) are a `panicked` outcome.
- The regex engine is hand-compiled for the single fixed pattern, with
  leftmost, non-overlapping iteration (`captures_iter`) and the forced
  maximal-munch reading of the greedy runs in the pattern; `\d` and `\s`
  are modelled by their ASCII parts (the inputs at issue are ASCII).
- `HashMap<String, Vec<String>>` is an association list with
  first-match lookup (`lookupAL`) and replacing insert (`insertAL`).
- Database reads/writes that can fail at the transport level are
  environment inputs (`dbFail`, `allocResult`, `insertResult`); a SQLite
  insert assigns the fresh row id from the environment (`newRowId`).
-/

/-- A row of the `devices` table (struct `DeviceRow` in the source). -/
structure DeviceRow where
  id : Int
  node_id : Int
  endpoint_id : Int
  name : String
  capabilities : List (String × List String)
deriving DecidableEq

/-- Body of `POST /devices/:id/command` (struct `CommandRequest`). -/
structure CommandRequest where
  cluster : String
  command : String
  args : List String
deriving DecidableEq

/-- Body of `POST /devices/commission` (struct `CommissionRequest`). -/
structure CommissionRequest where
  pairing_code : Int
  name : String
deriving DecidableEq

/-- Outcome of one `std::process::Command::output()` call: either the
process could not be started (`Err` from `output()`), or it ran and
reports whether the exit status was zero, plus captured stdout/stderr. -/
inductive ProcResult where
  | failedToStart (err : String)
  | ran (success : Bool) (stdout : String) (stderr : String)
deriving DecidableEq

/-- HTTP status plus the serialized `CommandResponse` body. -/
structure HttpResp where
  status : Nat
  success : Bool
  message : String
deriving DecidableEq

/-- Result of a commissioning request: an HTTP response carrying the
`CommissionResponse` body, or a Rust panic raised inside the handler. -/
inductive CommissionResult where
  | resp (status : Nat) (success : Bool) (id : Option Int) (message : String)
  | panicked (msg : String)
deriving DecidableEq

-- ---------------------------------------------------------------------
-- Capability registry (fn get_cluster_name, fn get_command_name)
-- ---------------------------------------------------------------------

/-- Embedding of `fn get_cluster_name`; the Rust `match` on integer
literals is written as the equivalent equality chain in source order. -/
def get_cluster_name (cluster_id : Nat) : Option String :=
  if cluster_id = 0x06 then some "onoff"
  else if cluster_id = 0x08 then some "levelcontrol"
  else if cluster_id = 0x300 then some "colorcontrol"
  else none

/-- Embedding of `fn get_command_name`; the Rust `match` on pairs of
integer literals is written as the equivalent equality chain in source
order. -/
def get_command_name (cluster_id : Nat) (command_id : Nat) : Option String :=
  if cluster_id = 0x06 ∧ command_id = 0x00 then some "off"
  else if cluster_id = 0x06 ∧ command_id = 0x01 then some "on"
  else if cluster_id = 0x06 ∧ command_id = 0x02 then some "toggle"
  else if cluster_id = 0x08 ∧ command_id = 0x00 then some "move-to-level"
  else if cluster_id = 0x08 ∧ command_id = 0x01 then some "move"
  else if cluster_id = 0x08 ∧ command_id = 0x02 then some "step"
  else if cluster_id = 0x08 ∧ command_id = 0x03 then some "stop"
  else if cluster_id = 0x08 ∧ command_id = 0x04 then some "move-to-level-with-on-off"
  else if cluster_id = 0x08 ∧ command_id = 0x05 then some "move-with-on-off"
  else if cluster_id = 0x08 ∧ command_id = 0x06 then some "step-with-on-off"
  else if cluster_id = 0x08 ∧ command_id = 0x07 then some "stop-with-on-off"
  else if cluster_id = 0x08 ∧ command_id = 0x08 then some "move-to-closest-frequency"
  else if cluster_id = 0x300 ∧ command_id = 0x00 then some "move-to-hue"
  else if cluster_id = 0x300 ∧ command_id = 0x01 then some "move-hue"
  else if cluster_id = 0x300 ∧ command_id = 0x02 then some "step-hue"
  else if cluster_id = 0x300 ∧ command_id = 0x03 then some "move-to-saturation"
  else if cluster_id = 0x300 ∧ command_id = 0x04 then some "move-saturation"
  else if cluster_id = 0x300 ∧ command_id = 0x05 then some "step-saturation"
  else if cluster_id = 0x300 ∧ command_id = 0x06 then some "move-to-hue-and-saturation"
  else if cluster_id = 0x300 ∧ command_id = 0x07 then some "move-to-color"
  else if cluster_id = 0x300 ∧ command_id = 0x08 then some "move-color"
  else if cluster_id = 0x300 ∧ command_id = 0x09 then some "step-color"
  else if cluster_id = 0x300 ∧ command_id = 0x0A then some "move-to-color-temperature"
  else if cluster_id = 0x300 ∧ command_id = 0x40 then some "enhanced-move-to-hue"
  else if cluster_id = 0x300 ∧ command_id = 0x41 then some "enhanced-move-hue"
  else if cluster_id = 0x300 ∧ command_id = 0x42 then some "enhanced-step-hue"
  else if cluster_id = 0x300 ∧ command_id = 0x43 then some "enhanced-move-to-hue-and-saturation"
  else if cluster_id = 0x300 ∧ command_id = 0x44 then some "color-loop-set"
  else if cluster_id = 0x300 ∧ command_id = 0x47 then some "stop-move-set"
  else if cluster_id = 0x300 ∧ command_id = 0x4B then some "move-color-temperature"
  else if cluster_id = 0x300 ∧ command_id = 0x4C then some "step-color-temperature"
  else none

/-- Cluster table as the specification lists it (spec section 6,
"Registry literal contents"); reference point for the refinement of
`get_cluster_name`. -/
def spec_cluster_name (c : Nat) : Option String :=
  if c = 6 then some "onoff"
  else if c = 8 then some "levelcontrol"
  else if c = 768 then some "colorcontrol"
  else none

/-- Command table as the specification lists it (spec section 6): one
finite map per cluster; reference point for the refinement of
`get_command_name`. -/
def spec_command_name (c : Nat) (k : Nat) : Option String :=
  if c = 6 then
    if k = 0 then some "off"
    else if k = 1 then some "on"
    else if k = 2 then some "toggle"
    else none
  else if c = 8 then
    if k = 0 then some "move-to-level"
    else if k = 1 then some "move"
    else if k = 2 then some "step"
    else if k = 3 then some "stop"
    else if k = 4 then some "move-to-level-with-on-off"
    else if k = 5 then some "move-with-on-off"
    else if k = 6 then some "step-with-on-off"
    else if k = 7 then some "stop-with-on-off"
    else if k = 8 then some "move-to-closest-frequency"
    else none
  else if c = 768 then
    if k = 0 then some "move-to-hue"
    else if k = 1 then some "move-hue"
    else if k = 2 then some "step-hue"
    else if k = 3 then some "move-to-saturation"
    else if k = 4 then some "move-saturation"
    else if k = 5 then some "step-saturation"
    else if k = 6 then some "move-to-hue-and-saturation"
    else if k = 7 then some "move-to-color"
    else if k = 8 then some "move-color"
    else if k = 9 then some "step-color"
    else if k = 10 then some "move-to-color-temperature"
    else if k = 64 then some "enhanced-move-to-hue"
    else if k = 65 then some "enhanced-move-hue"
    else if k = 66 then some "enhanced-step-hue"
    else if k = 67 then some "enhanced-move-to-hue-and-saturation"
    else if k = 68 then some "color-loop-set"
    else if k = 71 then some "stop-move-set"
    else if k = 75 then some "move-color-temperature"
    else if k = 76 then some "step-color-temperature"
    else none
  else none

theorem get_cluster_name_eq_spec (c : Nat) :
    get_cluster_name c = spec_cluster_name c := by
  unfold get_cluster_name spec_cluster_name
  norm_num

theorem get_command_name_eq_spec (c k : Nat) :
    get_command_name c k = spec_command_name c k := by
  unfold get_command_name spec_command_name
  by_cases hc6 : c = 6
  · subst hc6; norm_num
  · by_cases hc8 : c = 8
    · subst hc8; norm_num
    · by_cases hc768 : c = 768
      · subst hc768; norm_num
      · simp [hc6, hc8, hc768]

-- ---------------------------------------------------------------------
-- Diagnostic output parser: the fixed regex, hand-compiled
-- ---------------------------------------------------------------------

/-- ASCII part of the regex character class `\s`. -/
def isWS (c : Char) : Bool :=
  c == ' ' || c == '\t' || c == '\n' || c == '\x0b' || c == '\x0c' || c == '\r'

/-- Matcher for the suffix `\[\d+\]:\s+(\d+)\s+\(` of the fixed pattern,
anchored at the current position.  Every greedy run in the pattern is
followed by a character from a disjoint class, so maximal munch is the
only possible parse and no backtracking arises.  On success, returns the
text of the single capture group together with the remainder of the line
after the matched opening parenthesis. -/
def matchTail (s : List Char) : Option (List Char × List Char) :=
  match s with
  | '[' :: s0 =>
    let d1 := s0.takeWhile Char.isDigit
    let s1 := s0.dropWhile Char.isDigit
    if d1.isEmpty then none
    else
      match s1 with
      | ']' :: ':' :: s2 =>
        let w1 := s2.takeWhile isWS
        let s3 := s2.dropWhile isWS
        if w1.isEmpty then none
        else
          let cap := s3.takeWhile Char.isDigit
          let s4 := s3.dropWhile Char.isDigit
          if cap.isEmpty then none
          else
            let w2 := s4.takeWhile isWS
            let s5 := s4.dropWhile isWS
            if w2.isEmpty then none
            else
              match s5 with
              | '(' :: s6 => some (cap, s6)
              | _ => none
      | _ => none
  | _ => none

/-- Lazy `.*?` between the `[TOO]` tag and the tail of the pattern: try
the tail at each successive position, shortest extension first. -/
def findTail (s : List Char) : Option (List Char × List Char) :=
  match s with
  | [] => none
  | _ :: rest =>
    match matchTail s with
    | some r => some r
    | none => findTail rest

/-- Leftmost occurrence of the literal `[TOO]`; returns the suffix after
the tag. -/
def findTOO (s : List Char) : Option (List Char) :=
  match s with
  | '[' :: 'T' :: 'O' :: 'O' :: ']' :: rest => some rest
  | [] => none
  | _ :: rest => findTOO rest

/-- Leftmost match of the whole pattern in a line: the match begins at
the leftmost `[TOO]` tag from which the tail can still be completed (a
start position whose tail search fails leaves no tail for any later
start either).  Returns the capture and the remainder after the match. -/
def findFirstMatch (s : List Char) : Option (List Char × List Char) :=
  match findTOO s with
  | none => none
  | some rest => findTail rest

/-- Iterated non-overlapping matching (`captures_iter`), fuelled; every
match consumes at least one character, so fuel equal to the line length
suffices. -/
def scanCaptures (fuel : Nat) (s : List Char) : List (List Char) :=
  match fuel with
  | 0 => []
  | Nat.succ fuel1 =>
    match findFirstMatch s with
    | none => []
    | some (cap, rest) => cap :: scanCaptures fuel1 rest

/-- All captures of the fixed pattern in one line, left to right. -/
def lineCaptures (line : List Char) : List (List Char) :=
  scanCaptures line.length line

/-- Helper for `rustLines`: `acc` is the current line reversed; a
carriage return immediately preceding the newline is stripped. -/
def stripCRrev (acc : List Char) : List Char :=
  match acc with
  | '\r' :: rest => rest.reverse
  | _ => acc.reverse

/-- Helper for `rustLines`, structural on the remaining input. -/
def rustLinesAux (acc : List Char) (s : List Char) : List (List Char) :=
  match s with
  | [] => if acc.isEmpty then [] else [acc.reverse]
  | '\n' :: rest => stripCRrev acc :: rustLinesAux [] rest
  | c :: rest => rustLinesAux (c :: acc) rest

/-- Rust `str::lines`: split at newlines, strip a carriage return that
directly precedes a newline, and do not yield a trailing empty line for
a trailing newline. -/
def rustLines (s : List Char) : List (List Char) :=
  rustLinesAux [] s

/-- Rust `u32::from_str_radix(s, 10)`: an optional leading plus sign,
then one or more ASCII digits, rejecting values at or above 2^32. -/
def parseU32 (s : List Char) : Option Nat :=
  let t := match s with
    | '+' :: rest => rest
    | _ => s
  if t.isEmpty then none
  else if t.all Char.isDigit then
    let v := t.foldl (fun acc c => acc * 10 + (c.toNat - 48)) 0
    if v < 4294967296 then some v else none
  else none

/-- Embedding of the parsing loop used twice in
`handle_device_commission` (lines 403-412 and 441-450): iterate over the
lines of captured stdout, and for each line push every capture of the
fixed pattern, in order, onto the accumulated vector. -/
def parseCaptures (stdout : String) : List String :=
  (rustLines stdout.data).foldl
    (fun acc line => acc ++ (lineCaptures line).map (fun cap => String.mk cap)) []

-- ---------------------------------------------------------------------
-- Association-list model of HashMap<String, Vec<String>>
-- ---------------------------------------------------------------------

/-- Key lookup, first match (`HashMap` keys are unique). -/
def lookupAL (m : List (String × List String)) (k : String) : Option (List String) :=
  match m with
  | [] => none
  | (k1, v) :: rest => if k1 = k then some v else lookupAL rest k

/-- `HashMap::insert`: replace the binding if the key is present,
otherwise append a new binding. -/
def insertAL (m : List (String × List String)) (k : String) (v : List String) :
    List (String × List String) :=
  match m with
  | [] => [(k, v)]
  | (k1, v1) :: rest =>
    if k1 = k then (k, v) :: rest else (k1, v1) :: insertAL rest k v

-- ---------------------------------------------------------------------
-- Command dispatcher (async fn handle_device_command)
-- ---------------------------------------------------------------------

/-- Message of the 404 response (source line 233). -/
def not_found_msg (id : Int) : String :=
  "Device with id \x27" ++ toString id ++ "\x27 not found"

/-- Message of the unsupported-cluster response (source lines 253-256). -/
def unsupported_cluster_msg (cluster device_name : String) : String :=
  "Cluster \x27" ++ cluster ++ "\x27 not supported by device \x27" ++ device_name ++ "\x27"

/-- Message of the unsupported-command response (source lines 267-270). -/
def unsupported_command_msg (command device_name cluster : String) : String :=
  "Command \x27" ++ command ++ "\x27 not supported by device \x27" ++ device_name ++
    "\x27 in cluster \x27" ++ cluster ++ "\x27"

/-- Message of the 200 response (source lines 293-296). -/
def exec_success_msg (command device_name : String) : String :=
  "Command \x27" ++ command ++ "\x27 executed successfully on device \x27" ++ device_name ++ "\x27"

/-- Positional argument list built for the external tool by the
dispatcher (source lines 276-283): cluster, command, the caller's
arguments in order, the node id, then the endpoint id. -/
def command_argv (payload : CommandRequest) (device : DeviceRow) : List String :=
  payload.cluster :: payload.command ::
    (payload.args ++ [toString device.node_id, toString device.endpoint_id])

/-- Embedding of `handle_device_command`.  `table` is the contents of
the `devices` table, `id` the path parameter, `exec` the subprocess
oracle, and `dbFail` a transport-level failure of the row fetch (`none`
means the query itself succeeded and the row, if any, is determined by
`table`).  Returns the HTTP response together with the list of argument
lists passed to the external tool. -/
def handle_device_command (table : List DeviceRow) (id : Int)
    (payload : CommandRequest) (exec : List String → ProcResult)
    (dbFail : Option String) : HttpResp × List (List String) :=
  match dbFail with
  | some e => (⟨500, false, "Database error: " ++ e⟩, [])
  | none =>
    match table.find? (fun d => d.id == id) with
    | none => (⟨404, false, not_found_msg id⟩, [])
    | some device =>
      let cluster := payload.cluster
      let command := payload.command
      let capabilities := device.capabilities
      match lookupAL capabilities cluster with
      | none =>
        (⟨400, false, unsupported_cluster_msg cluster device.name⟩, [])
      | some cmds =>
        if cmds.all (fun cmd => cmd != command) then
          (⟨400, false, unsupported_command_msg command device.name cluster⟩, [])
        else
          let argv := command_argv payload device
          match exec argv with
          | .ran psuccess _ pstderr =>
            if psuccess then
              (⟨200, true, exec_success_msg command device.name⟩, [argv])
            else
              (⟨400, false, "Command execution failed: " ++ pstderr⟩, [argv])
          | .failedToStart e =>
            (⟨500, false, "Failed to execute command: " ++ e⟩, [argv])

-- ---------------------------------------------------------------------
-- Commissioning orchestrator (async fn handle_device_commission)
-- ---------------------------------------------------------------------

/-- The SQL `SELECT COALESCE(MAX(id), 0) + 1` without the final `+ 1`:
maximum of the `id` column, `0` for an empty table. -/
def sqlMaxId (table : List DeviceRow) : Int :=
  match table with
  | [] => 0
  | d :: rest => (rest.map (fun r => r.id)).foldl max d.id

/-- Argument list of the pairing invocation (source lines 361-366). -/
def pairing_argv (node_id pairing_code : Int) : List String :=
  ["pairing", "onnetwork", toString node_id, toString pairing_code]

/-- Argument list of the server-list invocation (source lines 394-400). -/
def server_list_argv (node_id : Int) : List String :=
  ["descriptor", "read", "server-list", toString node_id, "1"]

/-- Argument list of the per-cluster accepted-command-list invocation
(source lines 433-439). -/
def accepted_command_list_argv (cluster_name : String) (node_id : Int) : List String :=
  [cluster_name, "read", "accepted-command-list", toString node_id, "1"]

/-- Environment of a commissioning request: the subprocess oracle, the
outcome of the id-allocation query (`none` = success), the outcome of
the final insert (`none` = success), and the row id SQLite assigns to
the inserted row. -/
structure CommissionEnv where
  exec : List String → ProcResult
  allocResult : Option String
  insertResult : Option String
  newRowId : Int

/-- Outcome of the per-cluster discovery loop: a Rust panic, or the
assembled capability map; both cases carry the argument lists of the
invocations performed by the loop. -/
inductive LoopOutcome where
  | panicked (msg : String) (invs : List (List String))
  | done (capmap : List (String × List String)) (invs : List (List String))
deriving DecidableEq

/-- Embedding of the per-cluster command-discovery loop (source lines
425-466).  `clusters` is the list `supported_clusters` of resolved
cluster *names*; the loop re-parses each element with
`u32::from_str_radix(_, 10).unwrap()`, which panics when the element is
not a decimal numeral. -/
def discoveryLoop (exec : List String → ProcResult) (node_id : Int)
    (clusters : List String) (capmap : List (String × List String))
    (invs : List (List String)) : LoopOutcome :=
  match clusters with
  | [] => .done capmap invs
  | cluster :: rest =>
    match parseU32 cluster.data with
    | none => .panicked "called Option::unwrap() on a None value" invs
    | some cluster_id =>
      let cluster_name := (get_cluster_name cluster_id).getD "unknown"
      if cluster_name = "unknown" then
        discoveryLoop exec node_id rest capmap invs
      else
        let argv := accepted_command_list_argv cluster_name node_id
        match exec argv with
        | .failedToStart _ =>
          .panicked "Failed to execute command to get supported commands" (invs ++ [argv])
        | .ran _ pstdout _ =>
          let ids := parseCaptures pstdout
          let supported_commands := ids.filterMap
            (fun s => (parseU32 s.data).bind (fun cid => get_command_name cluster_id cid))
          discoveryLoop exec node_id rest
            (insertAL capmap cluster_name supported_commands) (invs ++ [argv])

/-- Embedding of `handle_device_commission`.  Returns the result (HTTP
response or panic), the list of argument lists passed to the external
tool, and the device table after the request. -/
def handle_device_commission (table : List DeviceRow) (payload : CommissionRequest)
    (env : CommissionEnv) : CommissionResult × List (List String) × List DeviceRow :=
  let pairing_code := payload.pairing_code
  let name := payload.name
  match env.allocResult with
  | some e => (.resp 500 false none ("Database error: " ++ e), [], table)
  | none =>
    let node_id := sqlMaxId table + 1
    let pairArgv := pairing_argv node_id pairing_code
    match env.exec pairArgv with
    | .failedToStart e =>
      (.resp 500 false none ("Failed to execute commissioning command: " ++ e),
       [pairArgv], table)
    | .ran psuccess _ pstderr =>
      if !psuccess then
        (.resp 500 false none ("Commissioning command failed: " ++ pstderr),
         [pairArgv], table)
      else
        let slArgv := server_list_argv node_id
        match env.exec slArgv with
        | .failedToStart _ =>
          (.panicked "Failed to run command to get supported clusters",
           [pairArgv, slArgv], table)
        | .ran _ slStdout _ =>
          let cluster_ids := parseCaptures slStdout
          let supported_clusters := cluster_ids.filterMap
            (fun s => (parseU32 s.data).bind (fun cid => get_cluster_name cid))
          match discoveryLoop env.exec node_id supported_clusters [] [] with
          | .panicked m invs =>
            (.panicked m, [pairArgv, slArgv] ++ invs, table)
          | .done capmap invs =>
            match env.insertResult with
            | none =>
              (.resp 200 true (some node_id) "Device commissioned successfully",
               [pairArgv, slArgv] ++ invs,
               table ++ [⟨env.newRowId, node_id, 1, name, capmap⟩])
            | some e =>
              (.resp 500 false none ("Failed to insert device into database: " ++ e),
               [pairArgv, slArgv] ++ invs, table)

-- ---------------------------------------------------------------------
-- Helper lemmas
-- ---------------------------------------------------------------------

theorem all_bne_eq_false_of_mem {l : List String} {c : String} (h : c ∈ l) :
    l.all (fun x => x != c) = false := by
  simp only [List.all_eq_false]
  exact ⟨c, h, by simp⟩

theorem all_bne_eq_true_of_not_mem {l : List String} {c : String} (h : c ∉ l) :
    l.all (fun x => x != c) = true := by
  simp only [List.all_eq_true]
  intro x hx
  simp only [bne_iff_ne]
  exact fun hxc => h (hxc ▸ hx)

theorem foldl_append_eq_flatten {α β : Type} (f : α → List β) (init : List β)
    (L : List α) :
    L.foldl (fun acc x => acc ++ f x) init = init ++ (L.map f).flatten := by
  induction L generalizing init with
  | nil => simp
  | cons x xs ih => simp [List.foldl_cons, ih, List.append_assoc]

-- ---------------------------------------------------------------------
-- Claims
-- ---------------------------------------------------------------------

/-- Claim C5: `get_cluster_name` returns exactly the three literal cluster
names of the fixed table and `none` everywhere else, and
`get_command_name` agrees pointwise with the specification's literal
per-cluster command tables (so in particular it returns `none` for every
pair not in the table, including a recognized cluster paired with an
unrecognized command id, e.g. `(6, 3)`). -/
theorem c5_registry_tables :
    (∀ c : Nat, get_cluster_name c = spec_cluster_name c) ∧
    (∀ c : Nat, get_cluster_name c = none ∨ c = 6 ∨ c = 8 ∨ c = 768) ∧
    (∀ c k : Nat, get_command_name c k = spec_command_name c k) ∧
    get_cluster_name 6 = some "onoff" ∧
    get_cluster_name 8 = some "levelcontrol" ∧
    get_cluster_name 768 = some "colorcontrol" ∧
    get_cluster_name 999 = none ∧
    get_command_name 6 1 = some "on" ∧
    get_command_name 768 76 = some "step-color-temperature" ∧
    get_command_name 6 3 = none ∧
    get_command_name 999 0 = none := by
  refine ⟨get_cluster_name_eq_spec, ?_, get_command_name_eq_spec, ?_, ?_, ?_, ?_, ?_, ?_, ?_, ?_⟩
  · intro c
    unfold get_cluster_name
    split_ifs with h6 h8 h768
    · exact Or.inr (Or.inl h6)
    · exact Or.inr (Or.inr (Or.inl h8))
    · exact Or.inr (Or.inr (Or.inr h768))
    · exact Or.inl rfl
  all_goals decide

/-- Claim C6: the parsing loop emits exactly the captures of the fixed pattern
found in the input, line by line in source order and left to right
within each line (the output is the flattening of the per-line capture
lists), so an input with N matches yields exactly N captured numerals;
duplicates are preserved, as the concrete input with the id 6 captured
twice shows. -/
theorem c6_parser_matches :
    (∀ s : String, parseCaptures s =
      ((rustLines s.data).map
        (fun line => (lineCaptures line).map (fun cap => String.mk cap))).flatten) ∧
    (∀ s : String, (parseCaptures s).length =
      ((rustLines s.data).map (fun line => (lineCaptures line).length)).sum) ∧
    parseCaptures "junk\n[TOO] a [0]: 6 (x)\nmid\n[TOO] b [0]: 6 (y) [TOO] c [1]: 8 (z)\n" =
      ["6", "6", "8"] := by
  have hflat : ∀ s : String, parseCaptures s =
      ((rustLines s.data).map
        (fun line => (lineCaptures line).map (fun cap => String.mk cap))).flatten := by
    intro s
    unfold parseCaptures
    rw [foldl_append_eq_flatten (fun line => (lineCaptures line).map (fun cap => String.mk cap))]
    simp
  refine ⟨hflat, ?_, by decide⟩
  intro s
  rw [hflat s, List.length_flatten]
  simp [Function.comp_def]

/-- Claim C3: when the device row is found and the request passes both
validation checks, the dispatcher calls the external tool exactly once,
with the positional arguments cluster name, command name, the caller's
arguments in order, then the decimal renderings of the node id and the
endpoint id; a zero exit status is classified as success (HTTP 200,
success flag set). -/
theorem c3_dispatch_success (table : List DeviceRow) (id : Int)
    (payload : CommandRequest) (exec : List String → ProcResult)
    (device : DeviceRow) (cmds : List String) (out err : String)
    (hfind : table.find? (fun d => d.id == id) = some device)
    (hclu : lookupAL device.capabilities payload.cluster = some cmds)
    (hcmd : payload.command ∈ cmds)
    (hexec : exec (command_argv payload device) = .ran true out err) :
    command_argv payload device =
      payload.cluster :: payload.command ::
        (payload.args ++ [toString device.node_id, toString device.endpoint_id]) ∧
    handle_device_command table id payload exec none =
      (⟨200, true, exec_success_msg payload.command device.name⟩,
       [command_argv payload device]) := by
  refine ⟨rfl, ?_⟩
  simp only [handle_device_command, hfind, hclu, all_bne_eq_false_of_mem hcmd, hexec]
  simp

/-- Witness for C3 at the specification's concrete example: capability
map with one entry for "onoff", request ("onoff", "toggle", []), device
node 7 endpoint 1; the tool is invoked once with exactly
["onoff", "toggle", "7", "1"] and the zero exit maps to HTTP 200. -/
theorem c3_dispatch_success_witness :
    handle_device_command [⟨1, 7, 1, "lamp", [("onoff", ["on", "off", "toggle"])]⟩] 1
        ⟨"onoff", "toggle", []⟩ (fun _ => .ran true "" "") none =
      (⟨200, true, exec_success_msg "toggle" "lamp"⟩,
       [["onoff", "toggle", "7", "1"]]) :=
  (c3_dispatch_success [⟨1, 7, 1, "lamp", [("onoff", ["on", "off", "toggle"])]⟩] 1
    ⟨"onoff", "toggle", []⟩ (fun _ => .ran true "" "")
    ⟨1, 7, 1, "lamp", [("onoff", ["on", "off", "toggle"])]⟩
    ["on", "off", "toggle"] "" "" (by decide) (by decide) (by decide) rfl).2

/-- Claim C4: with the device row found, a cluster absent from the device's
capability map yields the unsupported-cluster response (HTTP 400,
success flag clear) with no tool invocation, whatever the command; a
present cluster whose command list does not contain the requested
command yields the unsupported-command response (HTTP 400) with no tool
invocation.  The first part holds for every command, which is the
cluster check taking precedence over the command check. -/
theorem c4_validation (table : List DeviceRow) (id : Int)
    (payload : CommandRequest) (exec : List String → ProcResult)
    (device : DeviceRow)
    (hfind : table.find? (fun d => d.id == id) = some device) :
    (lookupAL device.capabilities payload.cluster = none →
      handle_device_command table id payload exec none =
        (⟨400, false, unsupported_cluster_msg payload.cluster device.name⟩, [])) ∧
    (∀ cmds, lookupAL device.capabilities payload.cluster = some cmds →
      payload.command ∉ cmds →
      handle_device_command table id payload exec none =
        (⟨400, false,
          unsupported_command_msg payload.command device.name payload.cluster⟩, [])) := by
  constructor
  · intro hclu
    simp only [handle_device_command, hfind, hclu]
  · intro cmds hclu hcmd
    simp only [handle_device_command, hfind, hclu, all_bne_eq_true_of_not_mem hcmd]
    simp

/-- Witness for C4: a device supporting only cluster "onoff" with
command "on"; requesting cluster "nope" gives the unsupported-cluster
response, requesting command "zap" on "onoff" gives the
unsupported-command response, and neither run invokes the tool. -/
theorem c4_validation_witness :
    handle_device_command [⟨1, 7, 1, "lamp", [("onoff", ["on"])]⟩] 1
        ⟨"nope", "x", []⟩ (fun _ => .ran true "" "") none =
      (⟨400, false, unsupported_cluster_msg "nope" "lamp"⟩, []) ∧
    handle_device_command [⟨1, 7, 1, "lamp", [("onoff", ["on"])]⟩] 1
        ⟨"onoff", "zap", []⟩ (fun _ => .ran true "" "") none =
      (⟨400, false, unsupported_command_msg "zap" "lamp" "onoff"⟩, []) :=
  ⟨(c4_validation [⟨1, 7, 1, "lamp", [("onoff", ["on"])]⟩] 1 ⟨"nope", "x", []⟩
      (fun _ => .ran true "" "") ⟨1, 7, 1, "lamp", [("onoff", ["on"])]⟩ (by decide)).1
      (by decide),
   (c4_validation [⟨1, 7, 1, "lamp", [("onoff", ["on"])]⟩] 1 ⟨"onoff", "zap", []⟩
      (fun _ => .ran true "" "") ⟨1, 7, 1, "lamp", [("onoff", ["on"])]⟩ (by decide)).2
      ["on"] (by decide) (by decide)⟩

/-- Claim C8: outcome classification of the dispatcher: no matching device row
gives HTTP 404; for a validated request, an invocation that could not
start gives HTTP 500; a process that ran and exited non-zero gives HTTP
400 with the message carrying the captured standard-error text; a
process that ran and exited zero gives HTTP 200. -/
theorem c8_outcome_classification (table : List DeviceRow) (id : Int)
    (payload : CommandRequest) (exec : List String → ProcResult) :
    (table.find? (fun d => d.id == id) = none →
      handle_device_command table id payload exec none =
        (⟨404, false, not_found_msg id⟩, [])) ∧
    (∀ device cmds e, table.find? (fun d => d.id == id) = some device →
      lookupAL device.capabilities payload.cluster = some cmds →
      payload.command ∈ cmds →
      exec (command_argv payload device) = .failedToStart e →
      handle_device_command table id payload exec none =
        (⟨500, false, "Failed to execute command: " ++ e⟩,
         [command_argv payload device])) ∧
    (∀ device cmds out err, table.find? (fun d => d.id == id) = some device →
      lookupAL device.capabilities payload.cluster = some cmds →
      payload.command ∈ cmds →
      exec (command_argv payload device) = .ran false out err →
      handle_device_command table id payload exec none =
        (⟨400, false, "Command execution failed: " ++ err⟩,
         [command_argv payload device])) ∧
    (∀ device cmds out err, table.find? (fun d => d.id == id) = some device →
      lookupAL device.capabilities payload.cluster = some cmds →
      payload.command ∈ cmds →
      exec (command_argv payload device) = .ran true out err →
      handle_device_command table id payload exec none =
        (⟨200, true, exec_success_msg payload.command device.name⟩,
         [command_argv payload device])) := by
  refine ⟨?_, ?_, ?_, ?_⟩
  · intro hfind
    simp only [handle_device_command, hfind]
  · intro device cmds e hfind hclu hcmd hexec
    simp only [handle_device_command, hfind, hclu, all_bne_eq_false_of_mem hcmd, hexec]
    simp
  · intro device cmds out err hfind hclu hcmd hexec
    simp only [handle_device_command, hfind, hclu, all_bne_eq_false_of_mem hcmd, hexec]
    simp
  · intro device cmds out err hfind hclu hcmd hexec
    simp only [handle_device_command, hfind, hclu, all_bne_eq_false_of_mem hcmd, hexec]
    simp

/-- Witness for C8: a device id with no row gives 404; and a validated
request whose process exits non-zero gives 400 carrying the diagnostic
text from standard error. -/
theorem c8_outcome_classification_witness :
    handle_device_command [] 3 ⟨"onoff", "on", []⟩ (fun _ => .ran true "" "") none =
      (⟨404, false, not_found_msg 3⟩, []) ∧
    handle_device_command [⟨1, 7, 1, "lamp", [("onoff", ["on"])]⟩] 1
        ⟨"onoff", "on", []⟩ (fun _ => .ran false "" "device offline") none =
      (⟨400, false, "Command execution failed: device offline"⟩,
       [["onoff", "on", "7", "1"]]) :=
  ⟨(c8_outcome_classification [] 3 ⟨"onoff", "on", []⟩ (fun _ => .ran true "" "")).1
      (by decide),
   (c8_outcome_classification [⟨1, 7, 1, "lamp", [("onoff", ["on"])]⟩] 1
      ⟨"onoff", "on", []⟩ (fun _ => .ran false "" "device offline")).2.2.1
      ⟨1, 7, 1, "lamp", [("onoff", ["on"])]⟩ ["on"] "" "device offline"
      (by decide) (by decide) (by decide) rfl⟩

/-- Claim C7: if the id-allocation query succeeded but the pairing invocation
either could not be started or exited non-zero, commissioning aborts
with HTTP 500 (success flag clear, no id), having invoked the external
tool only for the pairing call — no discovery invocation is made — and
the device table is returned unchanged. -/
theorem c7_pairing_failure (table : List DeviceRow) (payload : CommissionRequest)
    (env : CommissionEnv) (halloc : env.allocResult = none) :
    (∀ e, env.exec (pairing_argv (sqlMaxId table + 1) payload.pairing_code) =
        .failedToStart e →
      handle_device_commission table payload env =
        (.resp 500 false none ("Failed to execute commissioning command: " ++ e),
         [pairing_argv (sqlMaxId table + 1) payload.pairing_code], table)) ∧
    (∀ out err, env.exec (pairing_argv (sqlMaxId table + 1) payload.pairing_code) =
        .ran false out err →
      handle_device_commission table payload env =
        (.resp 500 false none ("Commissioning command failed: " ++ err),
         [pairing_argv (sqlMaxId table + 1) payload.pairing_code], table)) := by
  constructor
  · intro e hexec
    simp only [handle_device_commission, halloc, hexec]
  · intro out err hexec
    simp only [handle_device_commission, halloc, hexec]
    simp

/-- Witness for C7: with a pairing subprocess that cannot start, the
commission request on an empty table returns HTTP 500 with no id, the
only attempted invocation is the pairing call, and the table stays
empty. -/
theorem c7_pairing_failure_witness :
    handle_device_commission [] ⟨5, "desk"⟩
        ⟨fun _ => .failedToStart "spawn error", none, none, 0⟩ =
      (.resp 500 false none "Failed to execute commissioning command: spawn error",
       [["pairing", "onnetwork", "1", "5"]], []) :=
  (c7_pairing_failure [] ⟨5, "desk"⟩
    ⟨fun _ => .failedToStart "spawn error", none, none, 0⟩ rfl).1 "spawn error" rfl

/-- Counterexample to C9 as stated: the allocation query is
`SELECT COALESCE(MAX(id), 0) + 1`, a maximum over the local row ids, not
over the node identifiers.  On a table whose single row has id 5 but
node_id 2, a successful commission reports and persists node id 6, while
max over existing node identifiers plus one is 3. -/
theorem c9_counterexample :
    (handle_device_commission [⟨5, 2, 1, "old", []⟩] ⟨9, "newdev"⟩
        ⟨fun _ => .ran true "" "", none, none, 6⟩).1 =
      .resp 200 true (some 6) "Device commissioned successfully" ∧
    ([⟨5, 2, 1, "old", []⟩] : List DeviceRow).map (fun r => r.node_id) = [2] ∧
    (6 : Int) ≠ 2 + 1 := by decide

/-- Claim C9 (amended, proved): the node identifier allocated at commission
time is max of the existing local row ids plus one (an empty table
yields 1), and on every successful commission the reported id and the
node_id of the newly persisted row both equal this value. -/
theorem c9_allocation (table : List DeviceRow) (payload : CommissionRequest)
    (env : CommissionEnv) :
    ∀ st idv msg invs tbl2,
      handle_device_commission table payload env = (.resp st true idv msg, invs, tbl2) →
      idv = some (sqlMaxId table + 1) ∧
      tbl2.map (fun r => r.node_id) =
        table.map (fun r => r.node_id) ++ [sqlMaxId table + 1] := by
  intro st idv msg invs tbl2 h
  simp only [handle_device_commission] at h
  repeat' split at h
  all_goals simp_all
  obtain ⟨⟨_, _, _⟩, _, htbl⟩ := h
  subst htbl
  simp

/-- Witness for the amended C9 on an empty table: the allocated value is
1, reported and persisted. -/
theorem c9_allocation_witness :
    (some (1 : Int)) = some (sqlMaxId ([] : List DeviceRow) + 1) ∧
    ([⟨0, 1, 1, "w", []⟩] : List DeviceRow).map (fun r => r.node_id) =
      ([] : List DeviceRow).map (fun r => r.node_id) ++
        [sqlMaxId ([] : List DeviceRow) + 1] :=
  c9_allocation [] ⟨3, "w"⟩ ⟨fun _ => .ran true "" "", none, none, 0⟩
    200 (some 1) "Device commissioned successfully"
    [["pairing", "onnetwork", "1", "3"], ["descriptor", "read", "server-list", "1", "1"]]
    [⟨0, 1, 1, "w", []⟩] (by decide)

/-- Claim C10: every row in the device table after a commissioning request
either was already there, or is the newly persisted record and has
endpoint identifier exactly 1 — the insert binds the literal 1 for the
endpoint regardless of the request and of anything the tool reported. -/
theorem c10_endpoint_one (table : List DeviceRow) (payload : CommissionRequest)
    (env : CommissionEnv) :
    ∀ r ∈ (handle_device_commission table payload env).2.2,
      r ∈ table ∨ r.endpoint_id = 1 := by
  intro r hr
  simp only [handle_device_commission] at hr
  repeat' split at hr
  all_goals try exact Or.inl hr
  rcases List.mem_append.1 hr with h | h
  · exact Or.inl h
  · simp only [List.mem_singleton] at h
    subst h
    exact Or.inr rfl

/-- Witness for C10: the row persisted by a successful commission on an
empty table has endpoint identifier 1. -/
theorem c10_endpoint_one_witness :
    (⟨0, 1, 1, "w", []⟩ : DeviceRow) ∈ ([] : List DeviceRow) ∨
    (⟨0, 1, 1, "w", []⟩ : DeviceRow).endpoint_id = 1 :=
  c10_endpoint_one [] ⟨3, "w"⟩ ⟨fun _ => .ran true "" "", none, none, 0⟩
    ⟨0, 1, 1, "w", []⟩ (by decide)

/-- Server-list stdout whose parsed cluster ids are 6, 768 and 999 (the
failing input of C1). -/
def c1_server_list_stdout : String :=
  "[TOO] list: [0]: 6 (uint)\n[TOO] list: [1]: 768 (uint)\n[TOO] list: [2]: 999 (uint)\n"

/-- Subprocess oracle for C1: pairing succeeds; the server-list read
returns `c1_server_list_stdout`. -/
def c1_exec : List String → ProcResult := fun argv =>
  if argv = server_list_argv 1 then .ran true c1_server_list_stdout "" else .ran true "" ""

/-- Claim C1 (code bug): the name resolution itself behaves as claimed — the
ids 6 and 768 resolve to "onoff" and "colorcontrol" and 999 is
discarded, and command ids 0, 1, 2 under cluster 6 resolve to
["off", "on", "toggle"] in order — but the discovery step never builds
this capability map: the per-cluster loop re-parses each resolved
cluster *name* with `u32::from_str_radix(_, 10).unwrap()`, which panics
on "onoff", so commissioning dies with a panic after the pairing and
server-list invocations and persists nothing. -/
theorem c1_discovery_bug :
    (parseCaptures c1_server_list_stdout).filterMap
        (fun s => (parseU32 s.data).bind (fun cid => get_cluster_name cid)) =
      ["onoff", "colorcontrol"] ∧
    [0, 1, 2].filterMap (fun k => get_command_name 6 k) = ["off", "on", "toggle"] ∧
    handle_device_commission [] ⟨11, "bulb"⟩ ⟨c1_exec, none, none, 1⟩ =
      (.panicked "called Option::unwrap() on a None value",
       [["pairing", "onnetwork", "1", "11"],
        ["descriptor", "read", "server-list", "1", "1"]],
       []) := by decide

theorem isWS_not_digit {c : Char} (h : isWS c = true) : c.isDigit = false := by
  unfold isWS at h
  simp only [Bool.or_eq_true, beq_iff_eq] at h
  rcases h with (((((h | h) | h) | h) | h) | h) <;> subst h <;> decide

theorem digit_not_isWS {c : Char} (h : c.isDigit = true) : isWS c = false := by
  cases hws : isWS c
  · rfl
  · rw [isWS_not_digit hws] at h
    exact absurd h (by decide)

theorem takeWhile_run_cons {p : Char → Bool} {l : List Char} {c : Char} {r : List Char}
    (hl : ∀ a ∈ l, p a = true) (hc : p c = false) :
    (l ++ c :: r).takeWhile p = l ∧ (l ++ c :: r).dropWhile p = c :: r := by
  induction l with
  | nil => simp [List.takeWhile, List.dropWhile, hc]
  | cons x xs ih =>
    have hx := hl x (by simp)
    obtain ⟨h1, h2⟩ := ih (fun a ha => hl a (by simp [ha]))
    simp [List.takeWhile_cons, List.dropWhile_cons, hx, h1, h2]

/-- Counterexample to C2 as stated: the fixed regex demands whitespace
(`\s+`) between the captured number and the opening parenthesis, so on a
line where the number is directly adjacent to the parenthesis nothing
matches and nothing is captured; the same line with one space before the
parenthesis yields the capture. -/
theorem c2_counterexample :
    parseCaptures "[TOO] index [0]: 6(" = [] ∧
    parseCaptures "[TOO] index [0]: 6 (" = ["6"] := by decide

/-- Claim C2 (amended, proved): after the bracketed index and its colon the
pattern requires one or more whitespace characters, then the captured
decimal number, then one or more whitespace characters, then the opening
parenthesis; only the number is captured.  A number directly adjacent to
the parenthesis does not match.  The last conjunct shows a full matching
line through the parser: only the decimal number is captured. -/
theorem c2_pattern (idx w1 num w2 rest : List Char)
    (hidx : idx ≠ [] ∧ ∀ a ∈ idx, a.isDigit = true)
    (hw1 : w1 ≠ [] ∧ ∀ a ∈ w1, isWS a = true)
    (hnum : num ≠ [] ∧ ∀ a ∈ num, a.isDigit = true)
    (hw2 : w2 ≠ [] ∧ ∀ a ∈ w2, isWS a = true) :
    matchTail ('[' :: (idx ++ ']' :: ':' :: (w1 ++ (num ++ (w2 ++ '(' :: rest))))) =
      some (num, rest) ∧
    matchTail ('[' :: (idx ++ ']' :: ':' :: (w1 ++ (num ++ '(' :: rest)))) = none ∧
    parseCaptures "[TOO] value: [1]: 42 (name)" = ["42"] := by
  obtain ⟨hidxne, hidxd⟩ := hidx
  obtain ⟨hw1ne, hw1w⟩ := hw1
  obtain ⟨hnumne, hnumd⟩ := hnum
  obtain ⟨hw2ne, hw2w⟩ := hw2
  have hidx_empty : idx.isEmpty = false := by
    cases idx with
    | nil => exact absurd rfl hidxne
    | cons a l => rfl
  have hnum_empty : num.isEmpty = false := by
    cases num with
    | nil => exact absurd rfl hnumne
    | cons a l => rfl
  refine ⟨?_, ?_, by decide⟩
  · -- positive case: whitespace separates the number from the parenthesis
    obtain ⟨n0, nt, rfl⟩ := List.exists_cons_of_ne_nil hnumne
    obtain ⟨ws0, wt, rfl⟩ := List.exists_cons_of_ne_nil hw2ne
    have hrun1 := takeWhile_run_cons (p := Char.isDigit)
      (l := idx) (c := ']') (r := ':' :: (w1 ++ ((n0 :: nt) ++ (ws0 :: wt ++ '(' :: rest))))
      hidxd (by decide)
    have hn0 : Char.isDigit n0 = true := hnumd n0 (by simp)
    have hws0 : isWS ws0 = true := hw2w ws0 (by simp)
    have hrun2 := takeWhile_run_cons (p := isWS)
      (l := w1) (c := n0) (r := nt ++ (ws0 :: wt ++ '(' :: rest))
      hw1w (digit_not_isWS hn0)
    have hrun3 := takeWhile_run_cons (p := Char.isDigit)
      (l := n0 :: nt) (c := ws0) (r := wt ++ '(' :: rest)
      hnumd (isWS_not_digit hws0)
    have hrun4 := takeWhile_run_cons (p := isWS)
      (l := ws0 :: wt) (c := '(') (r := rest)
      hw2w (by decide)
    simp only [matchTail]
    rw [show idx ++ ']' :: ':' :: (w1 ++ ((n0 :: nt) ++ (ws0 :: wt ++ '(' :: rest))) =
          idx ++ ']' :: (':' :: (w1 ++ ((n0 :: nt) ++ (ws0 :: wt ++ '(' :: rest)))) from rfl,
        hrun1.1, hrun1.2, hidx_empty]
    simp only [Bool.false_eq_true, if_false]
    rw [show w1 ++ ((n0 :: nt) ++ (ws0 :: wt ++ '(' :: rest)) =
          w1 ++ (n0 :: (nt ++ (ws0 :: wt ++ '(' :: rest))) by simp,
        hrun2.1, hrun2.2]
    have hw1_empty : w1.isEmpty = false := by
      cases w1 with
      | nil => exact absurd rfl hw1ne
      | cons a l => rfl
    rw [hw1_empty]
    simp only [Bool.false_eq_true, if_false]
    rw [show n0 :: (nt ++ (ws0 :: wt ++ '(' :: rest)) =
          (n0 :: nt) ++ (ws0 :: (wt ++ '(' :: rest)) by simp,
        hrun3.1, hrun3.2]
    simp only [List.isEmpty_cons, Bool.false_eq_true, if_false]
    rw [show ws0 :: (wt ++ '(' :: rest) = (ws0 :: wt) ++ ('(' :: rest) by simp,
        hrun4.1, hrun4.2]
    simp
  · -- negative case: the number directly adjacent to the parenthesis
    obtain ⟨n0, nt, rfl⟩ := List.exists_cons_of_ne_nil hnumne
    have hn0 : Char.isDigit n0 = true := hnumd n0 (by simp)
    have hrun1 := takeWhile_run_cons (p := Char.isDigit)
      (l := idx) (c := ']') (r := ':' :: (w1 ++ ((n0 :: nt) ++ '(' :: rest)))
      hidxd (by decide)
    have hrun2 := takeWhile_run_cons (p := isWS)
      (l := w1) (c := n0) (r := nt ++ '(' :: rest)
      hw1w (digit_not_isWS hn0)
    have hrun3 := takeWhile_run_cons (p := Char.isDigit)
      (l := n0 :: nt) (c := '(') (r := rest)
      hnumd (by decide)
    simp only [matchTail]
    rw [show idx ++ ']' :: ':' :: (w1 ++ ((n0 :: nt) ++ '(' :: rest)) =
          idx ++ ']' :: (':' :: (w1 ++ ((n0 :: nt) ++ '(' :: rest))) from rfl,
        hrun1.1, hrun1.2, hidx_empty]
    simp only [Bool.false_eq_true, if_false]
    rw [show w1 ++ ((n0 :: nt) ++ '(' :: rest) =
          w1 ++ (n0 :: (nt ++ '(' :: rest)) by simp,
        hrun2.1, hrun2.2]
    have hw1_empty : w1.isEmpty = false := by
      cases w1 with
      | nil => exact absurd rfl hw1ne
      | cons a l => rfl
    rw [hw1_empty]
    simp only [Bool.false_eq_true, if_false]
    rw [show n0 :: (nt ++ '(' :: rest) = (n0 :: nt) ++ ('(' :: rest) by simp,
        hrun3.1, hrun3.2]
    have hpar : isWS '(' = false := by decide
    have h1 : List.takeWhile isWS ('(' :: rest) = [] := by
      rw [List.takeWhile_cons, hpar]
      simp
    rw [h1]
    simp

/-- Witness for the amended C2: index "0", one space on each side of the
number "6"; the tail pattern matches and captures exactly ['6'], and
with the space before the parenthesis removed it does not match. -/
theorem c2_pattern_witness :
    matchTail ('[' :: (['0'] ++ ']' :: ':' :: ([' '] ++ (['6'] ++ ([' '] ++ '(' :: ['x']))))) =
      some (['6'], ['x']) ∧
    matchTail ('[' :: (['0'] ++ ']' :: ':' :: ([' '] ++ (['6'] ++ '(' :: ['x'])))) = none ∧
    parseCaptures "[TOO] value: [1]: 42 (name)" = ["42"] :=
  c2_pattern ['0'] [' '] ['6'] [' '] ['x']
    ⟨by decide, by decide⟩ ⟨by decide, by decide⟩ ⟨by decide, by decide⟩ ⟨by decide, by decide⟩
